import Mathlib

/-!
Verification of the BGG proxy core (`src/main.py`, `get_bgg_games`):
a shallow embedding of the retry loop (fetcher) and the XML-tree
normalizer, plus theorems settling the specification's claims.

Python values produced by `xmltodict.parse` are modelled by `PyVal`:
`None`, strings, integers, dicts (association lists) and lists.
Python exceptions that the handler does not catch (AttributeError,
TypeError) are modelled by `PyErr` through `Except`.
-/

namespace BGG

/-- A Python value as it appears in the parsed XML tree. -/
inductive PyVal where
  | none : PyVal
  | str (s : String) : PyVal
  | int (n : Int) : PyVal
  | dict (fields : List (String × PyVal)) : PyVal
  | list (xs : List PyVal) : PyVal

/-- An unhandled Python exception class raised during normalization. -/
inductive PyErr where
  | attributeError : PyErr
  | typeError : PyErr
deriving DecidableEq

/-- Python `d.get(k, default)`: the stored value (even `None`) when the
key is present, else the default.  Embeds `dict.get` of `main.py`. -/
def pyGet (fs : List (String × PyVal)) (k : String) (d : PyVal) : PyVal :=
  (fs.lookup k).getD d

/-- Python truthiness (`if x:`) restricted to `PyVal`. -/
def pyTruthy : PyVal → Bool
  | PyVal.none => false
  | PyVal.str s => s ≠ ""
  | PyVal.int n => n ≠ 0
  | PyVal.dict fs => !fs.isEmpty
  | PyVal.list xs => !xs.isEmpty

mutual

/-- Python `repr` for the modelled values. -/
def pyRepr : PyVal → String
  | PyVal.none => "None"
  | PyVal.str s => "\x27" ++ s ++ "\x27"
  | PyVal.int n => toString n
  | PyVal.list xs => "[" ++ pyReprList xs ++ "]"
  | PyVal.dict fs => "\x7b" ++ pyReprFields fs ++ "\x7d"

/-- Comma-separated `repr` of list elements. -/
def pyReprList : List PyVal → String
  | [] => ""
  | [x] => pyRepr x
  | x :: xs => pyRepr x ++ ", " ++ pyReprList xs

/-- Comma-separated `repr` of dict entries. -/
def pyReprFields : List (String × PyVal) → String
  | [] => ""
  | [(k, v)] => "\x27" ++ k ++ "\x27: " ++ pyRepr v
  | (k, v) :: fs => "\x27" ++ k ++ "\x27: " ++ pyRepr v ++ ", " ++ pyReprFields fs

end

/-- Python `str(x)` (`repr` except on strings). -/
def pyStr : PyVal → String
  | PyVal.str s => s
  | v => pyRepr v

/-- Python slice `s[:n]` on a string. -/
def strTake (s : String) (n : Nat) : String :=
  String.mk (s.data.take n)

/-! ## Fetcher (retry state machine), `main.py` lines 61-116 -/

/-- `max_retries = 5` (`main.py` line 61). -/
def max_retries : Nat := 5

/-- `retry_delay = 5` seconds (`main.py` line 62). -/
def retry_delay : Nat := 5

/-- Outcome of one upstream HTTP attempt: a response with a status code
and body text, a timeout exception, or another transport error. -/
inductive UpOutcome where
  | resp (status : Nat) (text : String) : UpOutcome
  | timeout (msg : String) : UpOutcome
  | transportError (msg : String) : UpOutcome

/-- Detail string of the terminal 202 failure (`main.py` line 77). -/
def detail202 : String :=
  "BGG is processing the collection. Please try again in a few moments."

/-- Detail string of the terminal 503 busy failure (`main.py` line 88). -/
def detailBusy : String :=
  "BGG is very busy. Please try again later."

/-- Detail string of the immediate 502 unexpected-status failure
(`main.py` line 95): status code plus a 200-character body excerpt. -/
def detailUnexpected (s : Nat) (t : String) : String :=
  "BGG returned HTTP error " ++ toString s ++ ": " ++ strTake t 200

/-- Detail string of the terminal 504 timeout failure (`main.py` line 105). -/
def detailTimeout (e : String) : String :=
  "Timeout contacting BGG after " ++ toString max_retries ++ " attempts: " ++ e

/-- Detail string of the terminal 502 transport failure (`main.py` line 110). -/
def detailTransport (e : String) : String :=
  "Error contacting BGG after " ++ toString max_retries ++ " attempts: " ++ e

/-- Detail string of the for-else fallback failure (`main.py` line 115). -/
def detailFallback : String :=
  "Could not retrieve collection after " ++ toString max_retries ++ " attempts"

/-- What the fetch loop ends with: the 200 body (the `break` at line 99)
or a raised `HTTPException` with status and detail. -/
inductive FetchResult where
  | success (text : String) : FetchResult
  | httpExc (status : Nat) (detail : String) : FetchResult

/-- Result of the whole fetch phase: terminal result, number of upstream
calls made, and number of `retry_delay` sleeps performed. -/
structure FetchOut where
  result : FetchResult
  calls : Nat
  sleeps : Nat

/-- What one loop iteration does with the outcome of its upstream call
(`main.py` lines 66-110); `canRetry` is `attempt < max_retries - 1`. -/
inductive AttemptAction where
  | breakWith (text : String) : AttemptAction
  | sleepRetry : AttemptAction
  | raiseExc (status : Nat) (detail : String) : AttemptAction

/-- One iteration of the retry loop body (`main.py` lines 66-110). -/
def attemptStep (o : UpOutcome) (canRetry : Bool) : AttemptAction :=
  match o with
  | UpOutcome.resp s t =>
    if s = 202 then
      if canRetry then AttemptAction.sleepRetry
      else AttemptAction.raiseExc 202 detail202
    else if s = 500 ∨ s = 503 then
      if canRetry then AttemptAction.sleepRetry
      else AttemptAction.raiseExc 503 detailBusy
    else if s ≠ 200 then AttemptAction.raiseExc 502 (detailUnexpected s t)
    else AttemptAction.breakWith t
  | UpOutcome.timeout e =>
    if canRetry then AttemptAction.sleepRetry
    else AttemptAction.raiseExc 504 (detailTimeout e)
  | UpOutcome.transportError e =>
    if canRetry then AttemptAction.sleepRetry
    else AttemptAction.raiseExc 502 (detailTransport e)

/-- The `for attempt in range(max_retries)` loop with its `else` clause
(`main.py` lines 65-116).  `fuel` is the number of iterations left,
`a` the 0-based attempt index, `calls` and `sleeps` the counters so far;
`outcomes a` is what the upstream call of attempt `a` produces. -/
def fetchAux (outcomes : Nat → UpOutcome) : Nat → Nat → Nat → Nat → FetchOut
  | 0, _, calls, sleeps => ⟨FetchResult.httpExc 503 detailFallback, calls, sleeps⟩
  | fuel + 1, a, calls, sleeps =>
    match attemptStep (outcomes a) (decide (a < max_retries - 1)) with
    | AttemptAction.breakWith t => ⟨FetchResult.success t, calls + 1, sleeps⟩
    | AttemptAction.raiseExc s d => ⟨FetchResult.httpExc s d, calls + 1, sleeps⟩
    | AttemptAction.sleepRetry => fetchAux outcomes fuel (a + 1) (calls + 1) (sleeps + 1)

/-- The whole fetch phase of `get_bgg_games`. -/
def runFetch (outcomes : Nat → UpOutcome) : FetchOut :=
  fetchAux outcomes max_retries 0 0 0

/-! ## Normalizer, `main.py` lines 130-173 -/

/-- One extracted game record (`main.py` lines 168-171).  `objectid` is
`game.get("@objectid")` (Python `None` when absent) and `name` the
extracted name value. -/
structure ParsedGame where
  objectid : PyVal
  name : PyVal

/-- `name_data.get("#text", name_data.get("@value", ""))`
(`main.py` lines 152, 158, 163). -/
def nameFromDict (fs : List (String × PyVal)) : PyVal :=
  pyGet fs "#text" (pyGet fs "@value" (PyVal.str ""))

/-- `n.get("@sortindex") == "1" or n.get("@sortindex") == 1`
(`main.py` line 151). -/
def sortindexIs1 (fs : List (String × PyVal)) : Bool :=
  match fs.lookup "@sortindex" with
  | some (PyVal.str s) => s = "1"
  | some (PyVal.int n) => n = 1
  | _ => false

/-- The `for n in name_data` search loop (`main.py` lines 149-153):
the name set by the first dict entry whose sortindex matches, else the
Python `None` the loop leaves in place. -/
def loopName : List PyVal → PyVal
  | [] => PyVal.none
  | n :: rest =>
    match n with
    | PyVal.dict fs => if sortindexIs1 fs then nameFromDict fs else loopName rest
    | _ => loopName rest

/-- Name extraction from the `name` node (`main.py` lines 144-166). -/
def extractName (nd : PyVal) : PyVal :=
  match nd with
  | PyVal.list xs =>
    match loopName xs with
    | PyVal.none =>
      match xs with
      | [] => PyVal.none
      | first :: _ =>
        match first with
        | PyVal.dict fs => nameFromDict fs
        | v => PyVal.str (pyStr v)
    | v => v
  | PyVal.dict fs => nameFromDict fs
  | v => if pyTruthy v then PyVal.str (pyStr v) else PyVal.none

/-- Per-item extraction (`main.py` lines 139-171): `game.get(...)`
raises AttributeError when `game` is not a dict. -/
def extractGame (game : PyVal) : Except PyErr ParsedGame :=
  match game with
  | PyVal.dict gfs =>
    Except.ok ⟨pyGet gfs "@objectid" PyVal.none, extractName (pyGet gfs "name" PyVal.none)⟩
  | _ => Except.error PyErr.attributeError

/-- Extraction over the item sequence (the `for game in items` loop). -/
def extractAll : List PyVal → Except PyErr (List ParsedGame)
  | [] => Except.ok []
  | g :: rest =>
    match extractGame g with
    | Except.error e => Except.error e
    | Except.ok pg =>
      match extractAll rest with
      | Except.error e => Except.error e
      | Except.ok pgs => Except.ok (pg :: pgs)

/-- `items = [items] if isinstance(items, dict)` then `for game in items`
(`main.py` lines 135-139): a dict is wrapped, a list iterates its
elements, a string iterates its characters, and iterating `None` or an
int raises TypeError. -/
def iterItems : PyVal → Except PyErr (List PyVal)
  | PyVal.dict gfs => Except.ok [PyVal.dict gfs]
  | PyVal.list xs => Except.ok xs
  | PyVal.str s => Except.ok (s.data.map (fun c => PyVal.str (String.mk [c])))
  | _ => Except.error PyErr.typeError

/-- `data["message"].get("#text") if isinstance(data["message"], dict)
else data["message"]` (`main.py` line 131). -/
def textContent : PyVal → PyVal
  | PyVal.dict fs => pyGet fs "#text" PyVal.none
  | v => v

/-- The normalizer's result: the `processing` JSON object or the `ok`
JSON object with `count` and the extracted items. -/
inductive NormResult where
  | processing (message : PyVal) : NormResult
  | ok (count : Nat) (items : List ParsedGame) : NormResult

/-- Normalization of a successfully parsed tree (`main.py` lines
130-173).  `data` is the top-level dict returned by `xmltodict.parse`.
`data.get("items", {}).get("item", [])` raises AttributeError when the
`items` value is not a dict. -/
def normalize (data : List (String × PyVal)) : Except PyErr NormResult :=
  match data.lookup "message" with
  | some mv => Except.ok (NormResult.processing (textContent mv))
  | Option.none =>
    match pyGet data "items" (PyVal.dict []) with
    | PyVal.dict ifs =>
      match iterItems (pyGet ifs "item" (PyVal.list [])) with
      | Except.error e => Except.error e
      | Except.ok gs =>
        match extractAll gs with
        | Except.error e => Except.error e
        | Except.ok pgs => Except.ok (NormResult.ok pgs.length pgs)
    | _ => Except.error PyErr.attributeError

/-! ## The full handler pipeline after the username check -/

/-- Detail string of the 502 parse failure (`main.py` line 126):
exception text plus a 500-character excerpt of the body. -/
def detailParse (e xml : String) : String :=
  "Could not parse BGG XML response: " ++ e ++ ". Received response: " ++ strTake xml 500

/-- What `get_bgg_games` returns to its caller: an ok body, a processing
body, a raised `HTTPException`, or an unhandled Python crash. -/
inductive Response where
  | ok (count : Nat) (items : List ParsedGame) : Response
  | processing (message : PyVal) : Response
  | httpError (status : Nat) (detail : String) : Response
  | crash (e : PyErr) : Response

/-- The handler body after the username check (`main.py` lines 64-173):
fetch with retries, then parse (`parse` abstracts `xmltodict.parse`,
returning the exception text on failure), then normalize. -/
def handle (outcomes : Nat → UpOutcome)
    (parse : String → Except String (List (String × PyVal))) : Response :=
  match (runFetch outcomes).result with
  | FetchResult.httpExc s d => Response.httpError s d
  | FetchResult.success xml =>
    match parse xml with
    | Except.error e => Response.httpError 502 (detailParse e xml)
    | Except.ok data =>
      match normalize data with
      | Except.error pe => Response.crash pe
      | Except.ok (NormResult.processing m) => Response.processing m
      | Except.ok (NormResult.ok c items) => Response.ok c items

/-- A status/detail pair raised by one of the explicit terminal-failure
branches of the loop body (`main.py` lines 75-78, 86-89, 93-96, 105,
110) — as opposed to the for-else fallback of line 113. -/
def RaiseClassified (s : Nat) (d : String) : Prop :=
  (s = 202 ∧ d = detail202) ∨ (s = 503 ∧ d = detailBusy) ∨
  (∃ st t, s = 502 ∧ d = detailUnexpected st t) ∨
  (∃ e, s = 504 ∧ d = detailTimeout e) ∨
  (∃ e, s = 502 ∧ d = detailTransport e)

/-- A fetch result that is a 200 body or a classified terminal failure. -/
def ClassifiedOutcome : FetchResult → Prop
  | FetchResult.success _ => True
  | FetchResult.httpExc s d => RaiseClassified s d

/-- A name candidate that the search loop of `main.py` lines 149-153
selects: a dict whose `@sortindex` compares equal to `"1"` or `1`. -/
def IsSI1Candidate (v : PyVal) : Prop :=
  ∃ fs, v = PyVal.dict fs ∧ sortindexIs1 fs = true

/-- The first-entry fallback of `main.py` lines 156-160: text/value
extraction for a dict, Python `str` for anything else. -/
def fallbackName : PyVal → PyVal
  | PyVal.dict fs => nameFromDict fs
  | v => PyVal.str (pyStr v)

/-- A concrete two-item payload used as a witness input. -/
def twoItemTree : List (String × PyVal) :=
  [("items", PyVal.dict [("item", PyVal.list
      [PyVal.dict [("@objectid", PyVal.str "1"), ("name", PyVal.str "A")],
       PyVal.dict [("@objectid", PyVal.str "2"), ("name", PyVal.str "B")]])])]

/-- A concrete message-bearing payload used as a witness input. -/
def messageTree : List (String × PyVal) :=
  [("message", PyVal.dict [("#text", PyVal.str "Your request for this collection has been accepted")]),
   ("items", PyVal.dict [("item", PyVal.dict [("name", PyVal.str "X")])])]

/-- The message node of `messageTree`. -/
def messageNode : PyVal :=
  PyVal.dict [("#text", PyVal.str "Your request for this collection has been accepted")]

/-- The sortindex-1 candidate used by the C5 witness. -/
def candA1 : List (String × PyVal) :=
  [("@sortindex", PyVal.str "1"), ("#text", PyVal.str "A")]

/-! ## Helper lemmas -/

/-- The slice `s[:n]` has at most `n` characters. -/
theorem strTake_length_le (s : String) (n : Nat) : (strTake s n).length ≤ n := by
  have h : (strTake s n).length = (s.data.take n).length := rfl
  rw [h, List.length_take]
  exact min_le_left _ _

/-- Each loop iteration makes one upstream call, so the number of calls
is bounded by the remaining fuel. -/
theorem fetchAux_calls_le (os : Nat → UpOutcome) :
    ∀ fuel a c s, (fetchAux os fuel a c s).calls ≤ c + fuel := by
  intro fuel
  induction fuel with
  | zero => intro a c s; simp [fetchAux]
  | succ n ih =>
    intro a c s
    rw [fetchAux]
    cases attemptStep (os a) (decide (a < max_retries - 1)) with
    | breakWith t => simp
    | raiseExc st d => simp
    | sleepRetry =>
      have := ih (a + 1) (c + 1) (s + 1)
      simpa [Nat.add_assoc, Nat.add_comm 1 n] using this

/-- Every iteration of the loop body either breaks with a body, sleeps
(only when retries remain), or raises one of the classified failures. -/
theorem attemptStep_spec (o : UpOutcome) (b : Bool) :
    (∃ t, attemptStep o b = AttemptAction.breakWith t) ∨
    (attemptStep o b = AttemptAction.sleepRetry ∧ b = true) ∨
    (∃ s d, attemptStep o b = AttemptAction.raiseExc s d ∧ RaiseClassified s d) := by
  cases o with
  | resp s t =>
    by_cases h202 : s = 202
    · cases b with
      | true => exact Or.inr (Or.inl ⟨by simp [attemptStep, h202], rfl⟩)
      | false => exact Or.inr (Or.inr ⟨202, detail202, by simp [attemptStep, h202],
          Or.inl ⟨rfl, rfl⟩⟩)
    · by_cases h5 : s = 500 ∨ s = 503
      · cases b with
        | true => exact Or.inr (Or.inl ⟨by simp [attemptStep, h202, h5], rfl⟩)
        | false => exact Or.inr (Or.inr ⟨503, detailBusy, by simp [attemptStep, h202, h5],
            Or.inr (Or.inl ⟨rfl, rfl⟩)⟩)
      · by_cases h200 : s = 200
        · exact Or.inl ⟨t, by simp [attemptStep, h202, h5, h200]⟩
        · exact Or.inr (Or.inr ⟨502, detailUnexpected s t,
            by simp [attemptStep, h202, h5, h200],
            Or.inr (Or.inr (Or.inl ⟨s, t, rfl, rfl⟩))⟩)
  | timeout e =>
    cases b with
    | true => exact Or.inr (Or.inl ⟨by simp [attemptStep], rfl⟩)
    | false => exact Or.inr (Or.inr ⟨504, detailTimeout e, by simp [attemptStep],
        Or.inr (Or.inr (Or.inr (Or.inl ⟨e, rfl, rfl⟩)))⟩)
  | transportError e =>
    cases b with
    | true => exact Or.inr (Or.inl ⟨by simp [attemptStep], rfl⟩)
    | false => exact Or.inr (Or.inr ⟨502, detailTransport e, by simp [attemptStep],
        Or.inr (Or.inr (Or.inr (Or.inr ⟨e, rfl, rfl⟩)))⟩)

/-- The busy detail differs from the fallback detail. -/
theorem detailBusy_ne_fallback : detailBusy ≠ detailFallback := by decide

/-- While inside the loop (fuel left, attempt index consistent with
`range(max_retries)`), the fetch ends in a 200 body or a classified
failure: the last attempt never sleeps, so fuel never runs out. -/
theorem fetchAux_classified (os : Nat → UpOutcome) :
    ∀ fuel a c s, a + fuel = max_retries → 0 < fuel →
    ClassifiedOutcome (fetchAux os fuel a c s).result := by
  intro fuel
  induction fuel with
  | zero => intro a c s hsum h0; exact absurd h0 (by omega)
  | succ n ih =>
    intro a c s hsum _
    rw [fetchAux]
    rcases attemptStep_spec (os a) (decide (a < max_retries - 1)) with
      ⟨t, hstep⟩ | ⟨hstep, hb⟩ | ⟨st, d, hstep, hok⟩
    · rw [hstep]; trivial
    · rw [hstep]
      have ha : a < max_retries - 1 := of_decide_eq_true hb
      exact ih (a + 1) (c + 1) (s + 1) (by omega) (by
        have hmr : max_retries = 5 := rfl
        omega)
    · rw [hstep]; exact hok

/-- A classified outcome is never the for-else fallback failure. -/
theorem classified_ne_fallback (r : FetchResult) (h : ClassifiedOutcome r) :
    r ≠ FetchResult.httpExc 503 detailFallback := by
  cases r with
  | success t => exact fun hc => FetchResult.noConfusion hc
  | httpExc s d =>
    intro hc
    obtain ⟨hs, hd⟩ := FetchResult.httpExc.inj hc
    rcases h with ⟨h1, h2⟩ | ⟨h1, h2⟩ | ⟨st, t, h1, h2⟩ | ⟨e, h1, h2⟩ | ⟨e, h1, h2⟩
    · omega
    · exact detailBusy_ne_fallback (h2 ▸ hd)
    · omega
    · omega
    · omega

/-- The search loop skips every entry that is not a matching dict. -/
theorem loopName_append_no_match (pre rest : List PyVal)
    (hpre : ∀ v ∈ pre, ¬ IsSI1Candidate v) :
    loopName (pre ++ rest) = loopName rest := by
  induction pre with
  | nil => rfl
  | cons v pre ih =>
    have hv := hpre v (List.mem_cons_self v pre)
    have hpre2 : ∀ w ∈ pre, ¬ IsSI1Candidate w :=
      fun w hw => hpre w (List.mem_cons_of_mem v hw)
    cases v with
    | dict fs =>
      by_cases hsi : sortindexIs1 fs = true
      · exact absurd ⟨fs, rfl, hsi⟩ hv
      · simp only [List.cons_append, loopName, hsi, if_false]
        exact ih hpre2
    | none => exact ih hpre2
    | str s => exact ih hpre2
    | int n => exact ih hpre2
    | list xs => exact ih hpre2

/-- The search loop leaves `None` in place when no entry matches. -/
theorem loopName_none_of_no_match (xs : List PyVal)
    (h : ∀ v ∈ xs, ¬ IsSI1Candidate v) : loopName xs = PyVal.none := by
  have := loopName_append_no_match xs [] h
  simpa using this

/-- Unfolding of `extractName` on a list node. -/
theorem extractName_list_def (xs : List PyVal) :
    extractName (PyVal.list xs) =
      (match loopName xs with
       | PyVal.none =>
         match xs with
         | [] => PyVal.none
         | first :: _ =>
           match first with
           | PyVal.dict fs => nameFromDict fs
           | w => PyVal.str (pyStr w)
       | w => w) := rfl

/-- When the search loop found a non-`None` name, `extractName`
returns it unchanged. -/
theorem extractName_list_of_loopName (xs : List PyVal) (v : PyVal)
    (h : loopName xs = v) (hv : v ≠ PyVal.none) :
    extractName (PyVal.list xs) = v := by
  rw [extractName_list_def, h]
  cases v with
  | none => exact absurd rfl hv
  | str s => rfl
  | int n => rfl
  | dict fs => rfl
  | list ys => rfl

/-- The chosen sortindex-1 candidate determines the extracted name,
provided its own text/value extraction is not Python `None`. -/
theorem extractName_chosen (pre post : List PyVal) (fs : List (String × PyVal))
    (hpre : ∀ v ∈ pre, ¬ IsSI1Candidate v) (hsi : sortindexIs1 fs = true)
    (hne : nameFromDict fs ≠ PyVal.none) :
    extractName (PyVal.list (pre ++ PyVal.dict fs :: post)) = nameFromDict fs := by
  have hl : loopName (pre ++ PyVal.dict fs :: post) = nameFromDict fs := by
    rw [loopName_append_no_match pre _ hpre]
    simp [loopName, hsi]
  exact extractName_list_of_loopName _ _ hl hne

/-- With no matching candidate, the first entry decides the name. -/
theorem extractName_no_match (first : PyVal) (rest : List PyVal)
    (h : ∀ v ∈ first :: rest, ¬ IsSI1Candidate v) :
    extractName (PyVal.list (first :: rest)) = fallbackName first := by
  have hl : loopName (first :: rest) = PyVal.none := loopName_none_of_no_match _ h
  rw [extractName_list_def, hl]
  cases first with
  | none => rfl
  | str s => rfl
  | int n => rfl
  | dict fs => rfl
  | list ys => rfl

/-- A sequence of dicts extracts without an unhandled exception. -/
theorem extractAll_ok_of_dicts (xs : List PyVal)
    (h : ∀ x ∈ xs, ∃ gfs, x = PyVal.dict gfs) :
    ∃ pgs, extractAll xs = Except.ok pgs := by
  induction xs with
  | nil => exact ⟨[], rfl⟩
  | cons x xs ih =>
    obtain ⟨gfs, hx⟩ := h x (List.mem_cons_self x xs)
    obtain ⟨pgs, hpgs⟩ := ih (fun y hy => h y (List.mem_cons_of_mem x hy))
    subst hx
    refine ⟨⟨pyGet gfs "@objectid" PyVal.none, extractName (pyGet gfs "name" PyVal.none)⟩ :: pgs, ?_⟩
    simp [extractAll, extractGame, hpgs]

/-! ## Claim theorems -/

/-- C1: when every upstream attempt returns HTTP 202, the fetcher makes
exactly `max_retries` (5) upstream calls with exactly `max_retries - 1`
(4) inter-attempt sleeps of `retry_delay` (5) seconds, and terminates
with the 202 "BGG is processing the collection" failure; moreover for
every possible sequence of upstream outcomes the number of upstream
calls is bounded by `max_retries`. -/
theorem c1_all_202_exhausts_retries (outcomes : Nat → UpOutcome) (ts : Nat → String)
    (h : ∀ i, i < max_retries → outcomes i = UpOutcome.resp 202 (ts i)) :
    runFetch outcomes = ⟨FetchResult.httpExc 202 detail202, max_retries, max_retries - 1⟩
    ∧ max_retries = 5 ∧ retry_delay = 5
    ∧ ∀ os : Nat → UpOutcome, (runFetch os).calls ≤ max_retries := by
  refine ⟨?_, rfl, rfl, ?_⟩
  · have h0 := h 0 (by norm_num [max_retries])
    have h1 := h 1 (by norm_num [max_retries])
    have h2 := h 2 (by norm_num [max_retries])
    have h3 := h 3 (by norm_num [max_retries])
    have h4 := h 4 (by norm_num [max_retries])
    simp [runFetch, max_retries, fetchAux, h0, h1, h2, h3, h4, attemptStep]
  · intro os
    have := fetchAux_calls_le os max_retries 0 0 0
    simpa using this

/-- C1 witness: all-202 outcomes at the concrete body text "queued". -/
theorem c1_all_202_exhausts_retries_witness :
    (∀ i, i < max_retries →
      (fun _ : Nat => UpOutcome.resp 202 "queued") i = UpOutcome.resp 202 ((fun _ : Nat => "queued") i))
    ∧ runFetch (fun _ => UpOutcome.resp 202 "queued") =
        ⟨FetchResult.httpExc 202 detail202, max_retries, max_retries - 1⟩ :=
  ⟨fun _ _ => rfl,
   (c1_all_202_exhausts_retries (fun _ => UpOutcome.resp 202 "queued")
      (fun _ => "queued") (fun _ _ => rfl)).1⟩

/-- C2: on any attempt (any attempt index, any fuel left) whose response
status is not 200, 202, 500 or 503, the loop terminates at once with the
502 unexpected-status failure carrying the status and a 200-character
body excerpt, making exactly one more upstream call and no further sleep. -/
theorem c2_unexpected_status_immediate (outcomes : Nat → UpOutcome)
    (fuel a calls sleeps : Nat) (s : Nat) (t : String)
    (ho : outcomes a = UpOutcome.resp s t)
    (h200 : s ≠ 200) (h202 : s ≠ 202) (h500 : s ≠ 500) (h503 : s ≠ 503) :
    fetchAux outcomes (fuel + 1) a calls sleeps =
      ⟨FetchResult.httpExc 502 (detailUnexpected s t), calls + 1, sleeps⟩ := by
  rw [fetchAux, ho]
  have hor : ¬(s = 500 ∨ s = 503) := by tauto
  simp [attemptStep, h202, h200, hor]

/-- C2 witness: a 404 on the very first attempt with full fuel. -/
theorem c2_unexpected_status_immediate_witness :
    (fun _ : Nat => UpOutcome.resp 404 "Not Found") 0 = UpOutcome.resp 404 "Not Found"
    ∧ (404 ≠ 200) ∧ (404 ≠ 202) ∧ (404 ≠ 500) ∧ (404 ≠ 503)
    ∧ fetchAux (fun _ => UpOutcome.resp 404 "Not Found") (4 + 1) 0 0 0 =
        ⟨FetchResult.httpExc 502 (detailUnexpected 404 "Not Found"), 0 + 1, 0⟩ :=
  ⟨rfl, by norm_num, by norm_num, by norm_num, by norm_num,
   c2_unexpected_status_immediate (fun _ => UpOutcome.resp 404 "Not Found")
     4 0 0 0 404 "Not Found" rfl (by norm_num) (by norm_num) (by norm_num) (by norm_num)⟩

/-- C10: the for-else fallback ("Could not retrieve collection after 5
attempts") is unreachable: whatever the sequence of upstream outcomes,
the fetch result is never that failure — every execution exits the loop
with a 200 body or raises a classified failure on or before the final
attempt. -/
theorem c10_fallback_unreachable (os : Nat → UpOutcome) :
    ClassifiedOutcome (runFetch os).result
    ∧ (runFetch os).result ≠ FetchResult.httpExc 503 detailFallback :=
  have hcl : ClassifiedOutcome (runFetch os).result :=
    fetchAux_classified os max_retries 0 0 0 rfl (by norm_num [max_retries])
  ⟨hcl, classified_ne_fallback _ hcl⟩

/-- C6: a single item mapping normalizes exactly as the one-element
sequence of the same mapping, and a tree with no items→item node
(no `items` key, or an `items` mapping without `item`) normalizes to
status ok with count 0 and an empty item sequence. -/
theorem c6_single_item_wrap :
    (∀ m : List (String × PyVal),
      normalize [("items", PyVal.dict [("item", PyVal.dict m)])] =
      normalize [("items", PyVal.dict [("item", PyVal.list [PyVal.dict m])])])
    ∧ normalize [] = Except.ok (NormResult.ok 0 [])
    ∧ normalize [("items", PyVal.dict [])] = Except.ok (NormResult.ok 0 []) :=
  ⟨fun _ => rfl, rfl, rfl⟩

/-- C7: every ok-status result of the normalizer has its count equal to
the length of its item sequence. -/
theorem c7_count_eq_length (data : List (String × PyVal)) (c : Nat)
    (items : List ParsedGame)
    (h : normalize data = Except.ok (NormResult.ok c items)) : c = items.length := by
  unfold normalize at h
  split at h
  · simp at h
  · split at h
    · split at h
      · exact absurd h (by simp)
      · split at h
        · exact absurd h (by simp)
        · simp only [Except.ok.injEq, NormResult.ok.injEq] at h
          obtain ⟨h1, h2⟩ := h
          rw [← h1, h2]
    · simp at h

/-- C7 witness: a two-item payload, count 2 with 2 items. -/
theorem c7_count_eq_length_witness :
    normalize twoItemTree =
      Except.ok (NormResult.ok 2
        [⟨PyVal.str "1", PyVal.str "A"⟩, ⟨PyVal.str "2", PyVal.str "B"⟩])
    ∧ 2 = ([⟨PyVal.str "1", PyVal.str "A"⟩, ⟨PyVal.str "2", PyVal.str "B"⟩] : List ParsedGame).length :=
  ⟨rfl,
   c7_count_eq_length twoItemTree 2
     [⟨PyVal.str "1", PyVal.str "A"⟩, ⟨PyVal.str "2", PyVal.str "B"⟩] rfl⟩

/-- C8: whenever the parsed tree has a top-level `message` node, the
normalizer returns status processing carrying the node's text content
(the `#text` entry for a mapping — Python `None` when absent — and the
node itself otherwise), with no item list and regardless of any `items`
content elsewhere in the tree. -/
theorem c8_message_processing (data : List (String × PyVal)) (mv : PyVal)
    (h : data.lookup "message" = some mv) :
    normalize data = Except.ok (NormResult.processing (textContent mv))
    ∧ (∀ fs, mv = PyVal.dict fs → fs.lookup "#text" = Option.none →
        textContent mv = PyVal.none) := by
  constructor
  · unfold normalize
    rw [h]
  · intro fs hfs hnone
    subst hfs
    simp [textContent, pyGet, hnone]

/-- C8 witness: a message node alongside an items node still yields
processing. -/
theorem c8_message_processing_witness :
    messageTree.lookup "message" = some messageNode
    ∧ normalize messageTree =
        Except.ok (NormResult.processing (textContent messageNode)) :=
  ⟨rfl, (c8_message_processing messageTree messageNode rfl).1⟩

/-- C9: when the fetch phase ends with a 200 body whose text fails XML
parsing, the handler returns the 502 parse failure whose detail carries
a bounded excerpt (at most 500 characters) of the offending text; it
does not crash, and the upstream call count stays bounded by
`max_retries` (no retry is spent on this failure class). -/
theorem c9_parse_failure_502 (outcomes : Nat → UpOutcome)
    (parse : String → Except String (List (String × PyVal))) (xml e : String)
    (hf : (runFetch outcomes).result = FetchResult.success xml)
    (hp : parse xml = Except.error e) :
    handle outcomes parse = Response.httpError 502 (detailParse e xml)
    ∧ (strTake xml 500).length ≤ 500
    ∧ (runFetch outcomes).calls ≤ max_retries := by
  refine ⟨?_, strTake_length_le xml 500, ?_⟩
  · unfold handle
    rw [hf]
    simp [hp]
  · have := fetchAux_calls_le outcomes max_retries 0 0 0
    simpa [runFetch] using this

/-- C9 witness: a 200 response with an unparsable body. -/
theorem c9_parse_failure_502_witness :
    (runFetch (fun _ => UpOutcome.resp 200 "not xml")).result = FetchResult.success "not xml"
    ∧ (fun _ : String => (Except.error "ExpatError: syntax error" : Except String (List (String × PyVal)))) "not xml" =
        Except.error "ExpatError: syntax error"
    ∧ handle (fun _ => UpOutcome.resp 200 "not xml")
        (fun _ => Except.error "ExpatError: syntax error") =
        Response.httpError 502 (detailParse "ExpatError: syntax error" "not xml") :=
  ⟨rfl, rfl,
   (c9_parse_failure_502 (fun _ => UpOutcome.resp 200 "not xml")
      (fun _ => Except.error "ExpatError: syntax error") "not xml"
      "ExpatError: syntax error" rfl rfl).1⟩

/-- C3 counterexample: an item whose name node is a mapping with
neither `#text` nor `@value` (e.g. parsed from an empty
`name sortindex="1"` element) gets the empty string as its extracted
name in the ok response, not null — refuting the claim as stated. -/
theorem c3_counterexample :
    normalize [("items", PyVal.dict [("item",
        PyVal.dict [("name", PyVal.dict [("@sortindex", PyVal.str "1")])])])] =
      Except.ok (NormResult.ok 1 [⟨PyVal.none, PyVal.str ""⟩])
    ∧ PyVal.str "" ≠ PyVal.none :=
  ⟨rfl, fun hc => PyVal.noConfusion hc⟩

/-- C3 (amended): for a name node that is a mapping — or, in the
list-of-candidates case, whose chosen candidate mapping, whether chosen
by a sortindex-1 match or as the first-entry fallback when no entry
matches — with neither a `#text` content nor a `@value` attribute, the
extracted name is the empty string (never a missing field, but also
never null). -/
theorem c3_no_text_no_value_empty (fs : List (String × PyVal))
    (h1 : fs.lookup "#text" = Option.none) (h2 : fs.lookup "@value" = Option.none) :
    extractName (PyVal.dict fs) = PyVal.str ""
    ∧ (∀ pre post, (∀ v ∈ pre, ¬ IsSI1Candidate v) → sortindexIs1 fs = true →
        extractName (PyVal.list (pre ++ PyVal.dict fs :: post)) = PyVal.str "")
    ∧ (∀ rest, (∀ v ∈ PyVal.dict fs :: rest, ¬ IsSI1Candidate v) →
        extractName (PyVal.list (PyVal.dict fs :: rest)) = PyVal.str "") := by
  have hnfd : nameFromDict fs = PyVal.str "" := by
    simp [nameFromDict, pyGet, h1, h2]
  refine ⟨?_, ?_, ?_⟩
  · have hd : extractName (PyVal.dict fs) = nameFromDict fs := rfl
    rw [hd, hnfd]
  · intro pre post hpre hsi
    have h3 : nameFromDict fs ≠ PyVal.none := by
      rw [hnfd]; exact fun hc => PyVal.noConfusion hc
    rw [extractName_chosen pre post fs hpre hsi h3, hnfd]
  · intro rest hnone
    rw [extractName_no_match (PyVal.dict fs) rest hnone]
    have hf : fallbackName (PyVal.dict fs) = nameFromDict fs := rfl
    rw [hf, hnfd]

/-- C3 witness: a name mapping carrying only a sortindex attribute, in
the bare-mapping case and as the fallback-chosen first entry of a
candidate list with no sortindex-1 match. -/
theorem c3_no_text_no_value_empty_witness :
    ([("@sortindex", PyVal.str "1")] : List (String × PyVal)).lookup "#text" = Option.none
    ∧ ([("@sortindex", PyVal.str "1")] : List (String × PyVal)).lookup "@value" = Option.none
    ∧ extractName (PyVal.dict [("@sortindex", PyVal.str "1")]) = PyVal.str ""
    ∧ (∀ v ∈ [PyVal.dict [("@sortindex", PyVal.str "2")]], ¬ IsSI1Candidate v)
    ∧ extractName (PyVal.list [PyVal.dict [("@sortindex", PyVal.str "2")]]) = PyVal.str "" :=
  have hno : ∀ v ∈ [PyVal.dict [("@sortindex", PyVal.str "2")]], ¬ IsSI1Candidate v := by
    intro v hv
    rw [List.mem_singleton] at hv
    subst hv
    rintro ⟨gfs, heq, hsi⟩
    cases heq
    exact absurd hsi (by decide)
  ⟨rfl, rfl,
   (c3_no_text_no_value_empty [("@sortindex", PyVal.str "1")] rfl rfl).1,
   hno,
   (c3_no_text_no_value_empty [("@sortindex", PyVal.str "2")] rfl rfl).2.2 [] hno⟩

/-- C4 counterexample: trees produced by successful XML parsing with a
null `item` node (from an empty item element) or a null `items` node
(from an empty items element) make normalization raise an unhandled
TypeError / AttributeError — refuting the claim as stated. -/
theorem c4_counterexample :
    normalize [("items", PyVal.dict [("item", PyVal.none)])] = Except.error PyErr.typeError
    ∧ normalize [("items", PyVal.none)] = Except.error PyErr.attributeError :=
  ⟨rfl, rfl⟩

/-- C4 (amended): when the tree has no `message` node, its `items` node
(defaulted when absent) is a mapping, and the `item` node under it
(defaulted to an empty sequence when absent) is a mapping or a sequence
of mappings, normalization completes without an unhandled error and
returns a complete ok result, whatever the shapes of the per-item name
nodes; with a `message` node it returns a processing result. -/
theorem c4_supported_shapes_no_crash (data : List (String × PyVal))
    (ifs : List (String × PyVal))
    (hm : data.lookup "message" = Option.none)
    (hi : pyGet data "items" (PyVal.dict []) = PyVal.dict ifs)
    (hitem : (∃ gfs, pyGet ifs "item" (PyVal.list []) = PyVal.dict gfs) ∨
             (∃ xs, pyGet ifs "item" (PyVal.list []) = PyVal.list xs ∧
                    ∀ x ∈ xs, ∃ gfs, x = PyVal.dict gfs)) :
    ∃ pgs, normalize data = Except.ok (NormResult.ok pgs.length pgs) := by
  have hiter : ∃ gs, iterItems (pyGet ifs "item" (PyVal.list [])) = Except.ok gs ∧
      ∀ x ∈ gs, ∃ gfs, x = PyVal.dict gfs := by
    rcases hitem with ⟨gfs, hiv⟩ | ⟨xs, hiv, hall⟩
    · refine ⟨[PyVal.dict gfs], by rw [hiv]; rfl, ?_⟩
      intro x hx
      rw [List.mem_singleton] at hx
      exact ⟨gfs, hx⟩
    · exact ⟨xs, by rw [hiv]; rfl, hall⟩
  obtain ⟨gs, hgs, hall⟩ := hiter
  obtain ⟨pgs, hpgs⟩ := extractAll_ok_of_dicts gs hall
  refine ⟨pgs, ?_⟩
  unfold normalize
  simp [hm, hi, hgs, hpgs]

/-- C4 witness: an items mapping holding a one-element item sequence
whose name node is a bare scalar. -/
theorem c4_supported_shapes_no_crash_witness :
    ([("items", PyVal.dict [("item", PyVal.list [PyVal.dict [("name", PyVal.str "X")]])])] :
        List (String × PyVal)).lookup "message" = Option.none
    ∧ pyGet [("items", PyVal.dict [("item", PyVal.list [PyVal.dict [("name", PyVal.str "X")]])])]
        "items" (PyVal.dict []) = PyVal.dict [("item", PyVal.list [PyVal.dict [("name", PyVal.str "X")]])]
    ∧ ∃ pgs, normalize [("items", PyVal.dict [("item", PyVal.list [PyVal.dict [("name", PyVal.str "X")]])])] =
        Except.ok (NormResult.ok pgs.length pgs) :=
  ⟨rfl, rfl,
   c4_supported_shapes_no_crash _ [("item", PyVal.list [PyVal.dict [("name", PyVal.str "X")]])]
     rfl rfl
     (Or.inr ⟨[PyVal.dict [("name", PyVal.str "X")]], rfl,
       fun x hx => ⟨[("name", PyVal.str "X")], by
         rw [List.mem_singleton] at hx; exact hx⟩⟩)⟩

/-- C5: in the list-of-candidates case the extracted name comes from
the first entry whose `@sortindex` equals the string "1" or the integer
1 (given that its own text/value extraction is usable, i.e. the
candidate is a mapping in the upstream sense); with no matching entry
the first entry of the sequence decides; and the two payloads named in
the spec extract "A" and "B" respectively. -/
theorem c5_sortindex_selection :
    (∀ pre post fs, (∀ v ∈ pre, ¬ IsSI1Candidate v) → sortindexIs1 fs = true →
        nameFromDict fs ≠ PyVal.none →
        extractName (PyVal.list (pre ++ PyVal.dict fs :: post)) = nameFromDict fs)
    ∧ (∀ first rest, (∀ v ∈ first :: rest, ¬ IsSI1Candidate v) →
        extractName (PyVal.list (first :: rest)) = fallbackName first)
    ∧ extractName (PyVal.list
        [PyVal.dict [("@sortindex", PyVal.str "2"), ("#text", PyVal.str "B")],
         PyVal.dict [("@sortindex", PyVal.str "1"), ("#text", PyVal.str "A")]]) = PyVal.str "A"
    ∧ extractName (PyVal.list
        [PyVal.dict [("@sortindex", PyVal.str "2"), ("#text", PyVal.str "B")]]) = PyVal.str "B" :=
  ⟨fun pre post fs h1 h2 h3 => extractName_chosen pre post fs h1 h2 h3,
   fun first rest h => extractName_no_match first rest h,
   rfl, rfl⟩

/-- C5 witness: a one-candidate list whose entry matches sortindex 1. -/
theorem c5_sortindex_selection_witness :
    (∀ v ∈ ([] : List PyVal), ¬ IsSI1Candidate v)
    ∧ sortindexIs1 candA1 = true
    ∧ nameFromDict candA1 ≠ PyVal.none
    ∧ extractName (PyVal.list [PyVal.dict candA1]) = nameFromDict candA1 :=
  ⟨fun v hv => absurd hv (List.not_mem_nil v),
   rfl,
   fun hc => PyVal.noConfusion ((rfl : nameFromDict candA1 = PyVal.str "A") ▸ hc),
   c5_sortindex_selection.1 [] [] candA1
     (fun v hv => absurd hv (List.not_mem_nil v)) rfl
     (fun hc => PyVal.noConfusion ((rfl : nameFromDict candA1 = PyVal.str "A") ▸ hc))⟩

end BGG
